import Mathlib

/-!
Shallow embedding of check-tempager-3e-temperature (src/main.go), a Sensu
check that reads a location string and two temperature sensors from an SNMP
device and classifies the external temperature against two thresholds.

Go float64 arithmetic is modelled over Rat: every value the check divides is
an integer raw reading divided by 100.0, which is the rational raw/100 up to
one double rounding that the 2-decimal output formatting undoes, so Rat
captures the observable behaviour exactly for the magnitudes of temperature
readings. The SNMP library (gosnmp) and the network are modelled as an
environment record holding the outcome of the single Connect call and the
single Get call that executeCheck issues.
-/

namespace Tempager

/-- Sensu check exit state OK (sensu.CheckStateOK = 0). -/
def CheckStateOK : Nat := 0

/-- Sensu check exit state WARNING (sensu.CheckStateWarning = 1). -/
def CheckStateWarning : Nat := 1

/-- Sensu check exit state CRITICAL (sensu.CheckStateCritical = 2). -/
def CheckStateCritical : Nat := 2

/-- The plugin Config struct of main.go: plugin name plus the four option
values bound by the Sensu SDK (target, community, warning, critical).
Thresholds are Go float64, modelled as Rat. -/
structure Config where
  name : String
  target : String
  community : String
  warning : Rat
  critical : Rat
  deriving DecidableEq

/-- checkArgs from main.go lines 69-82. It returns the pair
(exit state, optional error message). The Go standard library call
net.ParseIP - not part of this repository - is passed in as a function
returning the parsed byte form of the address, or none when the string is
not a syntactically valid IPv4 or IPv6 address (hostnames included). -/
def checkArgs (parseIP : String → Option (List Nat)) (cfg : Config) :
    Nat × Option String :=
  if cfg.target = "" then
    (CheckStateCritical, some "target unit must be specified.")
  else if (parseIP cfg.target).isNone then
    (CheckStateCritical, some "target must be an IP address.")
  else
    (CheckStateOK, none)

/-- A Go dynamic value as it arrives in an SNMP PDU Value field of type
interface. Each constructor is one distinct runtime representation; the
type assertions in executeCheck accept exactly one constructor each. -/
inductive GoValue where
  | byteSlice (bs : List Nat)
  | goInt (n : Int)
  | goInt64 (n : Int)
  | goUint (n : Nat)
  | goFloat64 (q : Rat)
  | goString (s : String)
  deriving DecidableEq

/-- The Go type assertion v.([]uint8): succeeds exactly on byteSlice. -/
def GoValue.asByteSlice : GoValue → Option (List Nat)
  | .byteSlice bs => some bs
  | _ => none

/-- The Go type assertion v.( int): succeeds exactly on goInt, the native
int type; int64, uint, float64 and string representations are rejected. -/
def GoValue.asInt : GoValue → Option Int
  | .goInt n => some n
  | _ => none

/-- The Go conversion string(bs) for bs of type byte slice. -/
def stringOfBytes (bs : List Nat) : String :=
  String.mk (bs.map Char.ofNat)

/-- The three severity tiers of the check. -/
inductive Severity where
  | ok
  | warning
  | critical
  deriving DecidableEq

/-- The threshold comparison chain of main.go lines 137-148, first match
wins: CRITICAL when ext > critical, else WARNING when ext > warning,
else OK. Both comparisons are strict. -/
def severityDecision (ext warning critical : Rat) : Severity :=
  if ext > critical then .critical
  else if ext > warning then .warning
  else .ok

/-- The scaling of main.go lines 130-131: float64(raw) / 100.0. -/
def scaleTemp (raw : Int) : Rat := (raw : Rat) / 100

/-- Two-digit zero-padded decimal rendering of n < 100. -/
def pad2 (n : Nat) : String :=
  if n < 10 then "0" ++ toString n else toString n

/-- Rendering of fmt %.2f applied to float64(raw) / 100.0: the integer part
and exactly two decimal digits. For temperature-sized raw values the double
nearest raw/100 rounds back to exactly raw hundredths, so this is the string
Go prints. -/
def format2OfRaw (raw : Int) : String :=
  if raw < 0 then
    "-" ++ toString (raw.natAbs / 100) ++ "." ++ pad2 (raw.natAbs % 100)
  else
    toString (raw.toNat / 100) ++ "." ++ pad2 (raw.toNat % 100)

/-- The performance data string of main.go line 134. -/
def perfData (internalRaw externalRaw : Int) : String :=
  "tempager_internal=" ++ format2OfRaw internalRaw ++
    ", tempager_external=" ++ format2OfRaw externalRaw

/-- The human status line t of main.go line 135 (with its trailing newline,
as Sprintf produces it). -/
def humanLine (location : String) (internalRaw externalRaw : Int) : String :=
  location ++ " temperature is " ++ format2OfRaw externalRaw ++ "c | " ++
    perfData internalRaw externalRaw ++ "\n"

/-- Outcome of the two gosnmp library calls executeCheck makes: whether
Connect returned an error, and the Get result (an error, or the Value
fields of the returned Variables in order). -/
structure SnmpEnv where
  connectErr : Bool
  getResult : Except Unit (List GoValue)

/-- Which return path of executeCheck produced the result (ghost
instrumentation for stating the claims; it does not alter the logic). -/
inductive ExecPath where
  | connectFail
  | getFail
  | locationTypeFail
  | internalTypeFail
  | externalTypeFail
  | classified (sev : Severity)
  deriving DecidableEq

/-- True on every error path, false on the classified-severity path. -/
def ExecPath.isErrorPath : ExecPath → Bool
  | .classified _ => false
  | _ => true

/-- Observable outcome of one executeCheck invocation: exit state, the full
line printed to standard output, whether the connection was ever opened,
whether it was closed by return time, and the path taken. -/
structure ExecResult where
  code : Nat
  output : String
  connOpened : Bool
  connClosed : Bool
  path : ExecPath
  deriving DecidableEq

/-- executeCheck from main.go lines 84-149. Returns none exactly when the
Go code panics (indexing result.Variables out of range); on every other
path it returns the observable result. The deferred Conn.Close of line 97
is modelled by connClosed = true on every return path after a successful
Connect. Field accesses result.Variables[i] happen in source order, so a
type-assertion failure at an earlier index returns before a later
out-of-range index is touched. -/
def executeCheck (cfg : Config) (env : SnmpEnv) : Option ExecResult :=
  if env.connectErr then
    some ⟨CheckStateCritical,
      cfg.name ++ " CRITICAL: " ++ "failed to connect to tempager.\n",
      false, false, .connectFail⟩
  else
    match env.getResult with
    | .error _ =>
      some ⟨CheckStateCritical,
        cfg.name ++ " CRITICAL: " ++ "failed to gather oids.\n",
        true, true, .getFail⟩
    | .ok vars =>
      match vars[0]? with
      | none => none
      | some v0 =>
        match v0.asByteSlice with
        | none =>
          some ⟨CheckStateCritical,
            cfg.name ++ " CRITICAL: " ++ "failed to read location.\n",
            true, true, .locationTypeFail⟩
        | some locationBytes =>
          match vars[1]? with
          | none => none
          | some v1 =>
            match v1.asInt with
            | none =>
              some ⟨CheckStateCritical,
                cfg.name ++ " CRITICAL: " ++ "failed to read internal temperature.\n",
                true, true, .internalTypeFail⟩
            | some inttemp =>
              match vars[2]? with
              | none => none
              | some v2 =>
                match v2.asInt with
                | none =>
                  some ⟨CheckStateCritical,
                    cfg.name ++ " CRITICAL: " ++ "failed to read external temperature.\n",
                    true, true, .externalTypeFail⟩
                | some exttemp =>
                  match severityDecision (scaleTemp exttemp) cfg.warning cfg.critical with
                  | .critical =>
                    some ⟨CheckStateCritical,
                      cfg.name ++ " CRITICAL: " ++
                        humanLine (stringOfBytes locationBytes) inttemp exttemp,
                      true, true, .classified .critical⟩
                  | .warning =>
                    some ⟨CheckStateWarning,
                      cfg.name ++ " WARNING: " ++
                        humanLine (stringOfBytes locationBytes) inttemp exttemp,
                      true, true, .classified .warning⟩
                  | .ok =>
                    some ⟨CheckStateOK,
                      cfg.name ++ " OK: " ++
                        humanLine (stringOfBytes locationBytes) inttemp exttemp,
                      true, true, .classified .ok⟩

/-- The configuration of the end-to-end scenario of the specification:
default plugin name, warning 35.0, critical 40.0. -/
def scenarioCfg : Config :=
  ⟨"check-tempager-3e-temperature", "10.0.0.5", "public", 35, 40⟩

/-- The byte-slice content of the scenario location value. -/
def serverRoomBytes : List Nat :=
  ("Server Room".data.map Char.toNat)

/-- The scenario environment: Connect succeeds, Get returns the location
byte string and the raw readings 2850 (internal) and 3620 (external). -/
def scenarioEnv : SnmpEnv :=
  ⟨false, .ok [.byteSlice serverRoomBytes, .goInt 2850, .goInt 3620]⟩

/-- Environment where Connect succeeds and Get fails. -/
def getFailEnv : SnmpEnv := ⟨false, .error ()⟩

/-- The result executeCheck produces on getFailEnv. -/
def getFailRes : ExecResult :=
  ⟨CheckStateCritical,
    "check-tempager-3e-temperature" ++ " CRITICAL: " ++ "failed to gather oids.\n",
    true, true, .getFail⟩

/-- The Sensu exit state each severity tier maps to in main.go. -/
def severityCode : Severity → Nat
  | .ok => CheckStateOK
  | .warning => CheckStateWarning
  | .critical => CheckStateCritical

/-- A three-element response whose first value is not a byte slice. -/
def wVars : List GoValue := [.goInt 1, .goInt 2, .goInt 3]

end Tempager

namespace Tempager

/-- C1: the severity is computed by first-match order with strict
comparison: CRITICAL iff ext > critical; WARNING iff ext is not above
critical but is above warning; OK iff ext is above neither. At the
boundaries with warning 35 and critical 40: ext 40 is WARNING and
ext 35 is OK. -/
theorem severity_first_match_strict : ∀ e w c : Rat,
    (severityDecision e w c = .critical ↔ c < e) ∧
    (severityDecision e w c = .warning ↔ e ≤ c ∧ w < e) ∧
    (severityDecision e w c = .ok ↔ e ≤ c ∧ e ≤ w) ∧
    severityDecision 40 35 40 = .warning ∧
    severityDecision 35 35 40 = .ok := by
  intro e w c
  refine ⟨?_, ?_, ?_, by decide, by decide⟩ <;>
    · unfold severityDecision
      split_ifs with h1 h2 <;>
        simp_all [le_of_not_lt]

/-- On a successful connect and a three-value response of the expected
types, executeCheck reaches the classification path and classifies the
scaled external reading against the configured thresholds. -/
theorem executeCheck_path_classified (cfg : Config) (loc : List Nat) (i e : Int) :
    (executeCheck cfg ⟨false, .ok [.byteSlice loc, .goInt i, .goInt e]⟩).map ExecResult.path =
      some (.classified (severityDecision (scaleTemp e) cfg.warning cfg.critical)) := by
  simp only [executeCheck, GoValue.asByteSlice, GoValue.asInt,
    List.getElem?_cons_zero, List.getElem?_cons_succ]
  cases hs : severityDecision (scaleTemp e) cfg.warning cfg.critical <;> simp [hs]

/-- On the same successful path, the exit state is the one the reached
severity maps to. -/
theorem executeCheck_code_classified (cfg : Config) (loc : List Nat) (i e : Int) :
    (executeCheck cfg ⟨false, .ok [.byteSlice loc, .goInt i, .goInt e]⟩).map ExecResult.code =
      some (severityCode (severityDecision (scaleTemp e) cfg.warning cfg.critical)) := by
  simp only [executeCheck, GoValue.asByteSlice, GoValue.asInt,
    List.getElem?_cons_zero, List.getElem?_cons_succ]
  cases hs : severityDecision (scaleTemp e) cfg.warning cfg.critical <;>
    simp [hs, severityCode]

/-- With at least three response values executeCheck never panics,
whatever the dynamic types of the values are. -/
theorem executeCheck_isSome_of_three (cfg : Config) (a b c : GoValue)
    (rest : List GoValue) :
    (executeCheck cfg ⟨false, .ok (a :: b :: c :: rest)⟩).isSome = true := by
  simp only [executeCheck, List.getElem?_cons_zero, List.getElem?_cons_succ]
  cases ha : a.asByteSlice with
  | none => simp
  | some loc =>
    cases hb : b.asInt with
    | none => simp
    | some i =>
      cases hc : c.asInt with
      | none => simp
      | some e =>
        cases hs : severityDecision (scaleTemp e) cfg.warning cfg.critical <;>
          simp [ha, hb, hc, hs]

/-- C2: checkArgs fails with the missing-target message exactly when the
target is empty, fails with the invalid-target message exactly when the
target is non-empty but net.ParseIP rejects it (that is, it is not a
syntactically valid IPv4/IPv6 address; hostnames rejected), and returns OK
exactly when the target is non-empty and parses; it is a pure function of
the configuration with no side effects. -/
theorem checkArgs_classification :
    ∀ (parseIP : String → Option (List Nat)) (cfg : Config),
      (checkArgs parseIP cfg =
          (CheckStateCritical, some "target unit must be specified.") ↔
        cfg.target = "") ∧
      (checkArgs parseIP cfg =
          (CheckStateCritical, some "target must be an IP address.") ↔
        cfg.target ≠ "" ∧ parseIP cfg.target = none) ∧
      (checkArgs parseIP cfg = (CheckStateOK, none) ↔
        cfg.target ≠ "" ∧ (parseIP cfg.target).isSome = true) := by
  intro p cfg
  refine ⟨?_, ?_, ?_⟩ <;>
    · unfold checkArgs
      split_ifs with h1 h2 <;>
        simp_all [CheckStateOK, CheckStateCritical, Option.isNone_iff_eq_none,
          Option.isSome_iff_ne_none]

/-- C3: every error path is surfaced as CRITICAL. Argument-validation
failures return the CRITICAL exit state, and every non-classified return
path of executeCheck (connect failure, read failure, the three type-check
failures) returns the CRITICAL exit state and prints the plugin name, the
label CRITICAL and a short message; no error path yields WARNING or OK. -/
theorem errors_surface_critical :
    (∀ (parseIP : String → Option (List Nat)) (cfg : Config),
      ((checkArgs parseIP cfg).2).isSome = true →
        (checkArgs parseIP cfg).1 = CheckStateCritical) ∧
    (∀ (cfg : Config) (env : SnmpEnv) (res : ExecResult),
      executeCheck cfg env = some res → res.path.isErrorPath = true →
        res.code = CheckStateCritical ∧
        ∃ msg, res.output = cfg.name ++ " CRITICAL: " ++ msg) := by
  constructor
  · intro p cfg h
    unfold checkArgs at *
    split_ifs at * <;> simp_all
  · intro cfg env res h hp
    unfold executeCheck at h
    repeat' split at h
    all_goals
      first
      | (rw [Option.some.injEq] at h
         subst h
         first
         | exact ⟨rfl, "failed to connect to tempager.\n", rfl⟩
         | exact ⟨rfl, "failed to gather oids.\n", rfl⟩
         | exact ⟨rfl, "failed to read location.\n", rfl⟩
         | exact ⟨rfl, "failed to read internal temperature.\n", rfl⟩
         | exact ⟨rfl, "failed to read external temperature.\n", rfl⟩
         | simp [ExecPath.isErrorPath] at hp)
      | exact Option.noConfusion h

/-- C3 witness: on a run whose Get call fails, executeCheck returns the
CRITICAL exit state with a CRITICAL-labelled message, and a checkArgs run
with an empty target returns the CRITICAL exit state. -/
theorem errors_surface_critical_witness :
    ((checkArgs (fun _ => none) ⟨"n", "", "public", 35, 40⟩).1 =
      CheckStateCritical) ∧
    (executeCheck scenarioCfg getFailEnv = some getFailRes ∧
      getFailRes.code = CheckStateCritical ∧
      ∃ msg, getFailRes.output = scenarioCfg.name ++ " CRITICAL: " ++ msg) :=
  ⟨errors_surface_critical.1 (fun _ => none) ⟨"n", "", "public", 35, 40⟩
      (by decide),
   by decide,
   (errors_surface_critical.2 scenarioCfg getFailEnv getFailRes
      (by decide) (by decide)).1,
   (errors_surface_critical.2 scenarioCfg getFailEnv getFailRes
      (by decide) (by decide)).2⟩

/-- C4: the interpreter scales both raw readings by an exact division by
100: scaleTemp raw = raw / 100, raw 3567 scales to exactly 35.67, and on a
successful run the severity executeCheck reaches is the classification of
the scaled external reading scaleTemp e against the thresholds. -/
theorem scaling_divides_by_100 :
    (∀ raw : Int, scaleTemp raw = (raw : Rat) / 100) ∧
    scaleTemp 3567 = 35.67 ∧
    (∀ (cfg : Config) (loc : List Nat) (i e : Int),
      (executeCheck cfg ⟨false, .ok [.byteSlice loc, .goInt i, .goInt e]⟩).map
          ExecResult.path =
        some (.classified (severityDecision (scaleTemp e) cfg.warning cfg.critical))) :=
  ⟨fun _ => rfl, by norm_num [scaleTemp], fun cfg loc i e =>
    executeCheck_path_classified cfg loc i e⟩

/-- The end-to-end scenario evaluated: external 36.20 exceeds the warning
threshold 35, so the run classifies as WARNING and prints the plugin name,
the label WARNING and the human line. -/
theorem scenario_run :
    executeCheck scenarioCfg scenarioEnv =
      some ⟨CheckStateWarning,
        "check-tempager-3e-temperature" ++ " WARNING: " ++
          "Server Room temperature is 36.20c | tempager_internal=28.50, tempager_external=36.20\n",
        true, true, .classified .warning⟩ := by
  have hsev : severityDecision (scaleTemp 3620) (35 : Rat) (40 : Rat) =
      .warning := by
    unfold severityDecision scaleTemp
    norm_num
  simp only [executeCheck, scenarioCfg, scenarioEnv, hsev,
    List.getElem?_cons_zero, List.getElem?_cons_succ,
    GoValue.asByteSlice, GoValue.asInt, Bool.false_eq_true, if_false]
  decide

/-- C5 counterexample: in the end-to-end scenario with warning 35.0 the
printed status line is not the quoted string and the severity is not OK:
the external reading 36.20 strictly exceeds the warning threshold 35.0, so
the run classifies as WARNING, and the printed line is prefixed by the
plugin name and the severity label. -/
theorem scenario_output_counterexample :
    (executeCheck scenarioCfg scenarioEnv).map ExecResult.output ≠
      some "Server Room temperature is 36.20c | tempager_internal=28.50, tempager_external=36.20" ∧
    (executeCheck scenarioCfg scenarioEnv).map ExecResult.output ≠
      some "Server Room temperature is 36.20c | tempager_internal=28.50, tempager_external=36.20\n" ∧
    (executeCheck scenarioCfg scenarioEnv).map ExecResult.path ≠
      some (.classified .ok) := by
  rw [scenario_run]
  refine ⟨by decide, by decide, by decide⟩

/-- C5 amended: the formatted human line is exactly
"Server Room temperature is 36.20c | tempager_internal=28.50,
tempager_external=36.20" (newline-terminated); in the scenario the severity
is WARNING, the exit state is 1, and the full printed line is that human
line prefixed by the plugin name and the label WARNING. -/
theorem scenario_output :
    humanLine "Server Room" 2850 3620 =
      "Server Room temperature is 36.20c | tempager_internal=28.50, tempager_external=36.20\n" ∧
    (executeCheck scenarioCfg scenarioEnv).map ExecResult.path =
      some (.classified .warning) ∧
    (executeCheck scenarioCfg scenarioEnv).map ExecResult.code =
      some CheckStateWarning ∧
    (executeCheck scenarioCfg scenarioEnv).map ExecResult.output =
      some ("check-tempager-3e-temperature" ++ " WARNING: " ++
        "Server Room temperature is 36.20c | tempager_internal=28.50, tempager_external=36.20\n") := by
  rw [scenario_run]
  refine ⟨by decide, by decide, by decide, by decide⟩

/-- C6: severity (and the exit state) is a pure function of the external
raw reading and the two thresholds: two successful runs agreeing on those
but differing arbitrarily in plugin name, target, community, location and
internal reading classify identically; the internal reading is never
compared against a threshold. -/
theorem severity_ignores_location_and_internal :
    ∀ (n₁ n₂ t₁ t₂ c₁ c₂ : String) (w c : Rat) (l₁ l₂ : List Nat)
      (i₁ i₂ e : Int),
      (executeCheck ⟨n₁, t₁, c₁, w, c⟩
          ⟨false, .ok [.byteSlice l₁, .goInt i₁, .goInt e]⟩).map ExecResult.path =
        (executeCheck ⟨n₂, t₂, c₂, w, c⟩
          ⟨false, .ok [.byteSlice l₂, .goInt i₂, .goInt e]⟩).map ExecResult.path ∧
      (executeCheck ⟨n₁, t₁, c₁, w, c⟩
          ⟨false, .ok [.byteSlice l₁, .goInt i₁, .goInt e]⟩).map ExecResult.code =
        (executeCheck ⟨n₂, t₂, c₂, w, c⟩
          ⟨false, .ok [.byteSlice l₂, .goInt i₂, .goInt e]⟩).map ExecResult.code := by
  intro n₁ n₂ t₁ t₂ c₁ c₂ w c l₁ l₂ i₁ i₂ e
  constructor
  · rw [executeCheck_path_classified, executeCheck_path_classified]
  · rw [executeCheck_code_classified, executeCheck_code_classified]

/-- C7: once the connection was acquired, it is closed on every normal
return path of executeCheck - read success, read failure, and every
type-check failure alike. -/
theorem connection_closed_on_return :
    ∀ (cfg : Config) (env : SnmpEnv) (res : ExecResult),
      executeCheck cfg env = some res → res.connOpened = true →
        res.connClosed = true := by
  intro cfg env res h ho
  unfold executeCheck at h
  repeat' split at h
  all_goals
    first
    | (rw [Option.some.injEq] at h
       subst h
       first
       | rfl
       | simp at ho)
    | exact Option.noConfusion h

/-- C7 witness: on a run whose Get call fails after a successful connect,
the connection was opened and is closed at return. -/
theorem connection_closed_on_return_witness :
    executeCheck scenarioCfg getFailEnv = some getFailRes ∧
    getFailRes.connOpened = true ∧ getFailRes.connClosed = true :=
  ⟨by decide, by decide,
    connection_closed_on_return scenarioCfg getFailEnv getFailRes
      (by decide) (by decide)⟩

/-- C8: nothing validates the thresholds against each other, and when the
warning threshold is at least the critical threshold the WARNING tier is
unreachable: the decision is then always CRITICAL or OK. -/
theorem warning_unreachable_when_thresholds_inverted :
    ∀ e w c : Rat, c ≤ w →
      severityDecision e w c ≠ .warning ∧
      (severityDecision e w c = .critical ∨ severityDecision e w c = .ok) := by
  intro e w c h
  unfold severityDecision
  split_ifs with h1 h2
  · exact ⟨by simp, Or.inl rfl⟩
  · exact absurd (h2.trans_le ((le_of_not_lt h1).trans h)) (lt_irrefl w)
  · exact ⟨by simp, Or.inr rfl⟩

/-- C8 witness: with warning 40 and critical 35 the reading 37 does not
classify as WARNING. -/
theorem warning_unreachable_witness :
    (35 : Rat) ≤ 40 ∧ severityDecision 37 40 35 ≠ .warning :=
  ⟨by norm_num,
    (warning_unreachable_when_thresholds_inverted 37 40 35 (by norm_num)).1⟩

/-- C9: executeCheck indexes the response at 0, 1 and 2 without checking
its length: a response of fewer than three values whose present values
type-check makes the first out-of-range access panic (modelled as none)
instead of producing a named error, while any response of at least three
values never panics. -/
theorem short_response_panics :
    (∀ (cfg : Config) (loc : List Nat) (i : Int),
      executeCheck cfg ⟨false, .ok []⟩ = none ∧
      executeCheck cfg ⟨false, .ok [.byteSlice loc]⟩ = none ∧
      executeCheck cfg ⟨false, .ok [.byteSlice loc, .goInt i]⟩ = none) ∧
    (∀ (cfg : Config) (vars : List GoValue), 3 ≤ vars.length →
      (executeCheck cfg ⟨false, .ok vars⟩).isSome = true) := by
  constructor
  · intro cfg loc i
    refine ⟨?_, ?_, ?_⟩ <;>
      simp [executeCheck, GoValue.asByteSlice, GoValue.asInt]
  · intro cfg vars h
    rcases vars with _ | ⟨a, _ | ⟨b, _ | ⟨c, rest⟩⟩⟩
    · simp at h
    · simp at h
    · simp at h
    · exact executeCheck_isSome_of_three cfg a b c rest

/-- C9 witness: a concrete three-value response (even of the wrong types)
does not panic. -/
theorem short_response_panics_witness :
    3 ≤ wVars.length ∧
    (executeCheck scenarioCfg ⟨false, .ok wVars⟩).isSome = true :=
  ⟨by decide, short_response_panics.2 scenarioCfg wVars (by decide)⟩

/-- C10: each type assertion accepts exactly one runtime representation:
the location assertion succeeds exactly on a byte slice and the temperature
assertions exactly on the native int representation; a value delivered as
int64, float64 or string is rejected with the CRITICAL message naming the
failing field. -/
theorem type_assertions_accept_exactly_one :
    (∀ (v : GoValue) (bs : List Nat),
      v.asByteSlice = some bs ↔ v = .byteSlice bs) ∧
    (∀ (v : GoValue) (n : Int), v.asInt = some n ↔ v = .goInt n) ∧
    (∀ (cfg : Config) (s : String) (i e : Int),
      (executeCheck cfg ⟨false, .ok [.goString s, .goInt i, .goInt e]⟩).map
          ExecResult.output =
        some (cfg.name ++ " CRITICAL: " ++ "failed to read location.\n")) ∧
    (∀ (cfg : Config) (loc : List Nat) (m e : Int),
      (executeCheck cfg ⟨false, .ok [.byteSlice loc, .goInt64 m, .goInt e]⟩).map
          ExecResult.output =
        some (cfg.name ++ " CRITICAL: " ++ "failed to read internal temperature.\n")) ∧
    (∀ (cfg : Config) (loc : List Nat) (m : Int) (q : Rat),
      (executeCheck cfg ⟨false, .ok [.byteSlice loc, .goInt m, .goFloat64 q]⟩).map
          ExecResult.output =
        some (cfg.name ++ " CRITICAL: " ++ "failed to read external temperature.\n")) := by
  refine ⟨?_, ?_, ?_, ?_, ?_⟩
  · intro v bs
    cases v <;> simp [GoValue.asByteSlice]
  · intro v n
    cases v <;> simp [GoValue.asInt]
  · intro cfg s i e
    simp [executeCheck, GoValue.asByteSlice, GoValue.asInt]
  · intro cfg loc m e
    simp [executeCheck, GoValue.asByteSlice, GoValue.asInt]
  · intro cfg loc m q
    simp [executeCheck, GoValue.asByteSlice, GoValue.asInt]

end Tempager
